import Mathlib

/-!
Shallow embedding of the SpringMoney calculator suite's financial computation
functions, together with theorems checking the natural-language specification
against them.

Conventions used throughout:
* JavaScript numbers are modelled as exact rationals (`ℚ`).  All the formulas
  under verification are field operations, so the rational model mirrors the
  source expressions term for term; floating-point rounding error is not part
  of any claim checked here.
* `parseFloat` of an input field is modelled as `Option ℚ`: `none` stands for
  an empty / unparsable field (JS `NaN`), `some v` for a parsed value.
* `Math.round` is JS rounding: `⌊x + 1/2⌋`.
* A JS division whose denominator is exactly `0` produces a non-finite value
  (`Infinity`/`NaN`).  Where a claim is about such a case the division is
  modelled with an `Option` returning `none` for a zero denominator, marking
  "a non-finite value propagates from here".
-/

/-- JS `Math.round`: round half up, i.e. `⌊x + 1/2⌋`. -/
def jsRound (x : ℚ) : ℤ := ⌊x + 1/2⌋

/-- JS truthiness test for a parsed numeric field: `NaN` (here `none`) and `0`
are falsy, every other number is truthy. -/
def truthy : Option ℚ → Bool
  | none => false
  | some v => v != 0

/-- Severity of an advisory insight (`'success' | 'warning' | 'info'`). -/
inductive InsightType where
  | success
  | warning
  | info
deriving DecidableEq

namespace EMI

/-- One row of the EMI calculator's `yearlyData` (all fields `Math.round`ed
before being pushed, as in the source). -/
structure YearRow where
  year : ℕ
  remainingBalance : ℤ
  totalPaid : ℤ
  principalPaid : ℤ
  interestPaid : ℤ
deriving DecidableEq

/-- The `EMIResults` record set by `calculateResults`. -/
structure EMIResults where
  emi : ℤ
  totalAmount : ℤ
  totalInterest : ℤ
  yearlyData : List YearRow
deriving DecidableEq

/-- `emi = (principal * rate * Math.pow(1 + rate, time)) / (Math.pow(1 + rate, time) - 1)`
with `rate` the monthly rate and `time` the number of months. -/
def emiValue (principal rate : ℚ) (time : ℕ) : ℚ :=
  (principal * rate * (1 + rate) ^ time) / ((1 + rate) ^ time - 1)

/-- Mutable loop state of the amortization loop in `calculateResults`:
`remainingBalance` and `totalPaid` (kept unrounded across iterations). -/
structure LoopState where
  remainingBalance : ℚ
  totalPaid : ℚ

/-- One iteration of the yearly schedule loop:
`totalPaid += yearlyEMI; interestForYear = yearlyEMI - principal*12/time;`
`remainingBalance = max(0, remainingBalance - (yearlyEMI - interestForYear))`. -/
def scheduleStep (principal rate : ℚ) (time : ℕ) (s : LoopState) : LoopState :=
  let yearlyEMI := emiValue principal rate time * 12
  let totalPaid := s.totalPaid + yearlyEMI
  let interestForYear := yearlyEMI - principal * 12 / (time : ℚ)
  let remainingBalance := max 0 (s.remainingBalance - (yearlyEMI - interestForYear))
  ⟨remainingBalance, totalPaid⟩

/-- Loop state after `y` iterations, starting from
`remainingBalance = principal`, `totalPaid = 0`. -/
def stateAfter (principal rate : ℚ) (time : ℕ) : ℕ → LoopState
  | 0 => ⟨principal, 0⟩
  | y + 1 => scheduleStep principal rate time (stateAfter principal rate time y)

/-- The row pushed at the end of iteration `year` (fields `Math.round`ed). -/
def mkRow (principal : ℚ) (year : ℕ) (s : LoopState) : YearRow :=
  { year := year
    remainingBalance := jsRound s.remainingBalance
    totalPaid := jsRound s.totalPaid
    principalPaid := jsRound (principal - s.remainingBalance)
    interestPaid := jsRound (s.totalPaid - (principal - s.remainingBalance)) }

/-- `yearlyData` built by the loop `for year = 1..ceil(time/12)`; the term is a
whole number `T` of years, so the loop runs `T` times on `time = 12*T` months. -/
def yearlyData (principal rate : ℚ) (T : ℕ) : List YearRow :=
  (List.range T).map fun y => mkRow principal (y + 1) (stateAfter principal rate (12 * T) (y + 1))

/-- `calculateResults` of the EMI calculator: parses the three fields, guards
with `if (!principal || !rate || !time) return;`, then computes the EMI, the
totals and the yearly schedule.  The loan term is modelled as a whole number
of years (`Option ℕ`). -/
def calculateResults (loanAmount interestRate : Option ℚ) (loanTerm : Option ℕ) :
    Option EMIResults :=
  match loanAmount, interestRate, loanTerm with
  | some principal, some annualRate, some T =>
    let rate := annualRate / 12 / 100
    let time := 12 * T
    if principal = 0 ∨ rate = 0 ∨ time = 0 then none
    else
      let emi := emiValue principal rate time
      let totalAmount := emi * time
      let totalInterest := totalAmount - principal
      some { emi := jsRound emi
             totalAmount := jsRound totalAmount
             totalInterest := jsRound totalInterest
             yearlyData := yearlyData principal rate T }
  | _, _, _ => none

end EMI

/-- First index of a list element satisfying `pred` (the `Array.findIndex` /
first-crossing searches of the source, with `none` for JS `-1` / `null`). -/
def firstHit {α : Type} (pred : α → Bool) : List α → Option ℕ
  | [] => none
  | a :: l => if pred a then some 0 else (firstHit pred l).map (· + 1)

namespace SIP

/-- One entry of the SIP calculator's `monthlyData`. -/
structure MonthRow where
  month : ℕ
  invested : ℚ
  projectedValue : ℚ
deriving DecidableEq

/-- The `SIPResults` record set by `calculateSIP`. -/
structure SIPResults where
  futureValue : ℚ
  investedAmount : ℚ
  wealthGained : ℚ
  monthlyData : List MonthRow
deriving DecidableEq

/-- `monthlyInvestment * ((Math.pow(1+monthlyRate, i) - 1) / monthlyRate) * (1 + monthlyRate)`. -/
def projectedValueAt (monthlyInvestment monthlyRate : ℚ) (i : ℕ) : ℚ :=
  monthlyInvestment * (((1 + monthlyRate) ^ i - 1) / monthlyRate) * (1 + monthlyRate)

/-- `calculateSIP`: monthly rate `expectedReturn/(12*100)`, `months = years*12`,
future value by the annuity-due closed form, and the month-by-month series. -/
def calculateSIP (monthlyInvestment : ℚ) (years : ℕ) (expectedReturn : ℚ) : SIPResults :=
  let monthlyRate := expectedReturn / (12 * 100)
  let months := years * 12
  let investedAmount := monthlyInvestment * months
  let futureValue := projectedValueAt monthlyInvestment monthlyRate months
  let monthlyData := (List.range (months + 1)).map fun i =>
    { month := i
      invested := monthlyInvestment * i
      projectedValue := projectedValueAt monthlyInvestment monthlyRate i : MonthRow }
  { futureValue := futureValue
    investedAmount := investedAmount
    wealthGained := futureValue - investedAmount
    monthlyData := monthlyData }

end SIP

namespace FIRE

/-- One row of the FIRE calculator's `projections`. -/
structure ProjectionRow where
  year : ℕ
  age : ℕ
  savings : ℚ
  investmentReturns : ℚ
  totalCorpus : ℚ
  yearlyExpenses : ℚ
deriving DecidableEq

/-- `currentCorpus` after `y` iterations of the `calculateFIRE` loop:
`investmentReturns = currentCorpus * preReturnRate;`
`currentCorpus = currentCorpus + investmentReturns + monthlySavings*12`. -/
def corpusAfter (currentSavings monthlySavings preReturnRate : ℚ) : ℕ → ℚ
  | 0 => currentSavings
  | y + 1 =>
    let c := corpusAfter currentSavings monthlySavings preReturnRate y
    let investmentReturns := c * preReturnRate
    let yearlySavings := monthlySavings * 12
    c + investmentReturns + yearlySavings

/-- The `projections` array of `calculateFIRE` (rows `year = 0..yearsToRetirement`;
each row records the corpus after that year's update). -/
def projections (currentAge : ℕ) (currentSavings monthlySavings preReturnRate
    inflationRate monthlyExpenses : ℚ) (yearsToRetirement : ℕ) : List ProjectionRow :=
  (List.range (yearsToRetirement + 1)).map fun year =>
    { year := year
      age := currentAge + year
      savings := monthlySavings * 12
      investmentReturns := corpusAfter currentSavings monthlySavings preReturnRate year * preReturnRate
      totalCorpus := corpusAfter currentSavings monthlySavings preReturnRate (year + 1)
      yearlyExpenses := monthlyExpenses * 12 * (1 + inflationRate) ^ year }

end FIRE

namespace FirstCrore

/-- One row of the First-Crore calculator's `yearlyData`. -/
structure YearRow where
  year : ℕ
  investedAmount : ℚ
  projectedValue : ℚ
  yearlyReturns : ℚ
deriving DecidableEq

/-- `currentAmount` after `y` iterations of the `calculatePath` loop:
`yearlyReturns = (currentAmount + yearlyInvestment/2) * rate;`
`currentAmount = currentAmount + yearlyInvestment + yearlyReturns`
with `yearlyInvestment = monthly*12`. -/
def currentAmount (initial monthly rate : ℚ) : ℕ → ℚ
  | 0 => initial
  | y + 1 =>
    let prev := currentAmount initial monthly rate y
    let yearlyInvestment := monthly * 12
    let yearlyReturns := (prev + yearlyInvestment / 2) * rate
    prev + yearlyInvestment + yearlyReturns

/-- `totalInvested` after `y` iterations (`initial` plus `y` yearly contributions). -/
def totalInvested (initial monthly : ℚ) (y : ℕ) : ℚ :=
  initial + monthly * 12 * y

/-- The `yearlyData` array pushed by the `calculatePath` loop (`year = 1..years`). -/
def yearlyData (initial monthly rate : ℚ) (years : ℕ) : List YearRow :=
  (List.range years).map fun y =>
    { year := y + 1
      investedAmount := totalInvested initial monthly (y + 1)
      projectedValue := currentAmount initial monthly rate (y + 1)
      yearlyReturns := (currentAmount initial monthly rate y + monthly * 12 / 2) * rate }

/-- The `FirstCroreResults` record. -/
structure FirstCroreResults where
  yearsToTarget : ℕ
  monthlyInvestmentRequired : ℚ
  totalInvestment : ℚ
  totalReturns : ℚ
  yearlyProjections : List YearRow
deriving DecidableEq

/-- The `setResults` call made inside the loop at iteration `year = y+1`
(fires when `currentAmount >= targetAmount && !results`; `results` is the
React state captured by the handler's closure, so it does not change while
the loop runs). -/
def innerResult (initial monthly rate : ℚ) (y : ℕ) : FirstCroreResults :=
  { yearsToTarget := y + 1
    monthlyInvestmentRequired := monthly
    totalInvestment := totalInvested initial monthly (y + 1)
    totalReturns := currentAmount initial monthly rate (y + 1) - totalInvested initial monthly (y + 1)
    yearlyProjections := yearlyData initial monthly rate (y + 1) }

/-- The unconditional `setResults` call after the loop. -/
def finalResult (initial monthly rate : ℚ) (years : ℕ) : FirstCroreResults :=
  { yearsToTarget := years
    monthlyInvestmentRequired := monthly
    totalInvestment := totalInvested initial monthly years
    totalReturns := currentAmount initial monthly rate years - totalInvested initial monthly years
    yearlyProjections := yearlyData initial monthly rate years }

/-- The ordered queue of `setResults` calls issued by one invocation of
`calculatePath`, given whether the previously stored `results` state was
non-null.  React batches these; the stored state after the event is the value
of the last call in the queue. -/
def setResultsQueue (prevResultsIsSome : Bool) (initial monthly rate : ℚ) (years : ℕ) :
    List FirstCroreResults :=
  ((List.range years).filterMap fun y =>
    if currentAmount initial monthly rate (y + 1) ≥ 10000000 ∧ prevResultsIsSome = false
    then some (innerResult initial monthly rate y) else none)
  ++ [finalResult initial monthly rate years]

/-- The `results` state stored once the click handler's batched updates flush. -/
def storedResults (prevResultsIsSome : Bool) (initial monthly rate : ℚ) (years : ℕ) :
    Option FirstCroreResults :=
  (setResultsQueue prevResultsIsSome initial monthly rate years).getLast?

end FirstCrore

namespace BuyVsRent

/-- Validated numeric inputs of `calculateComparison` (post-`parseFloat`,
percentages still in percent where the source keeps them so). -/
structure Params where
  price : ℚ
  down : ℚ
  years : ℕ
  interestRatePct : ℚ
  rent : ℚ
  rentGrowth : ℚ
  appreciation : ℚ
  investment : ℚ
  maintenance : ℚ
deriving DecidableEq

/-- Monthly mortgage payment (EMI) on `loanAmount = price - down` at monthly
rate `interestRatePct/100/12` over `years*12` months. -/
def monthlyPayment (p : Params) : ℚ :=
  let rate := p.interestRatePct / 100 / 12
  let months := p.years * 12
  let loanAmount := p.price - p.down
  (loanAmount * rate * (1 + rate) ^ months) / ((1 + rate) ^ months - 1)

/-- One row of `yearlyProjections`. -/
structure YearRow where
  year : ℕ
  buyingNetWorth : ℚ
  rentingNetWorth : ℚ
  propertyValue : ℚ
  loanBalance : ℚ
  investmentValue : ℚ
deriving DecidableEq

/-- Mutable state of the comparison loop.  (`yearlyMaintenance` is computed in
the source but used nowhere, so it carries no state.) -/
structure LoopState where
  propertyValue : ℚ
  rent : ℚ
  loanBalance : ℚ
  totalRentPaid : ℚ
  investmentValue : ℚ
  breakEvenYear : Option ℕ
deriving DecidableEq

/-- State before the first iteration. -/
def initState (p : Params) : LoopState :=
  { propertyValue := p.price
    rent := p.rent
    loanBalance := p.price - p.down
    totalRentPaid := 0
    investmentValue := p.down
    breakEvenYear := none }

/-- One iteration of the `for (let year = 1; year <= years; ...)` loop:
buying leg (appreciation, principal paydown floored at 0), renting leg
(invested difference uses the already-grown rent), and the
`if (buyingNetWorth > rentingNetWorth && !breakEvenYear)` first-crossing
record. -/
def yearStep (p : Params) (year : ℕ) (s : LoopState) : YearRow × LoopState :=
  let mp := monthlyPayment p
  let propertyValue := s.propertyValue * (1 + p.appreciation)
  let yearlyInterest := s.loanBalance * (p.interestRatePct / 100)
  let yearlyPrincipal := mp * 12 - yearlyInterest
  let loanBalance := max 0 (s.loanBalance - yearlyPrincipal)
  let buyingNetWorth := propertyValue - loanBalance
  let totalRentPaid := s.totalRentPaid + s.rent * 12
  let rent := s.rent * (1 + p.rentGrowth)
  let investmentValue := s.investmentValue * (1 + p.investment) + (mp - rent) * 12
  let rentingNetWorth := investmentValue
  let breakEvenYear :=
    if buyingNetWorth > rentingNetWorth ∧ s.breakEvenYear = none then some year
    else s.breakEvenYear
  (⟨year, buyingNetWorth, rentingNetWorth, propertyValue, loanBalance, investmentValue⟩,
   ⟨propertyValue, rent, loanBalance, totalRentPaid, investmentValue, breakEvenYear⟩)

/-- Run `fuel` iterations starting at index `year`, collecting pushed rows. -/
def runFrom (p : Params) (s : LoopState) (year fuel : ℕ) : List YearRow × LoopState :=
  match fuel with
  | 0 => ([], s)
  | f + 1 =>
    let step := yearStep p year s
    let rest := runFrom p step.2 (year + 1) f
    (step.1 :: rest.1, rest.2)

/-- `calculateComparison`, reduced to the projection rows and the
`breakEvenYear` it stores in `ComparisonResults`. -/
def calculateComparison (p : Params) : List YearRow × Option ℕ :=
  let run := runFrom p (initState p) 1 p.years
  (run.1, run.2.breakEvenYear)

/-- Predicate of the break-even test: buying net worth strictly above renting. -/
def buyingAhead (r : YearRow) : Bool :=
  r.rentingNetWorth < r.buyingNetWorth

end BuyVsRent

namespace TaxCalc

/-- The `TaxResults` record of the capital-gains `calculateTax` (the two
`...InWords` display strings are omitted: they are formatting of the same
numbers). -/
structure TaxResults where
  capitalGains : ℚ
  taxLiability : ℚ
  purchaseAmount : ℚ
  saleAmount : ℚ
deriving DecidableEq

/-- `calculateTax`: the guard `if (!purchasePrice || !salePrice || !purchaseDate
|| !saleDate) { alert(...); return; }` tests the raw input strings, so a field
is blocking only when empty (`none`); dates are never parsed beyond that test,
so they are carried as opaque filled-or-empty values. -/
def calculateTax (purchasePrice salePrice : Option ℚ) (purchaseDate saleDate : Option ℤ) :
    Option TaxResults :=
  match purchasePrice, salePrice, purchaseDate, saleDate with
  | some purchase, some sale, some _, some _ =>
    let capitalGains := sale - purchase
    let taxLiability := capitalGains * 0.20
    some { capitalGains := capitalGains
           taxLiability := taxLiability
           purchaseAmount := purchase
           saleAmount := sale }
  | _, _, _, _ => none

end TaxCalc

namespace FD

/-- One row of the FD-sustainability `projections`. -/
structure Projection where
  year : ℕ
  age : ℕ
  startingCorpus : ℚ
  investmentReturns : ℚ
  expenses : ℚ
  endingCorpus : ℚ
deriving DecidableEq

/-- Corpus at the start of year `y` of `calculateProjection`:
`endingCorpus = corpus + corpus*returnRate - yearlyExpense*(1+inflation)^year`
carried into the next year. -/
def corpusAt (initialCorpus returnRate inflationRate yearlyExpense : ℚ) : ℕ → ℚ
  | 0 => initialCorpus
  | y + 1 =>
    let c := corpusAt initialCorpus returnRate inflationRate yearlyExpense y
    c + c * returnRate - yearlyExpense * (1 + inflationRate) ^ y

/-- `calculateProjection`: rows for `year = 0..(lifeExpectancy - currentAge)`;
the horizon is passed as `horizon = lifeExpectancy - currentAge`. -/
def calculateProjection (initialCorpus returnRate inflationRate yearlyExpense : ℚ)
    (currentAge horizon : ℕ) : List Projection :=
  (List.range (horizon + 1)).map fun year =>
    let c := corpusAt initialCorpus returnRate inflationRate yearlyExpense year
    { year := year
      age := currentAge + year
      startingCorpus := c
      investmentReturns := c * returnRate
      expenses := yearlyExpense * (1 + inflationRate) ^ year
      endingCorpus := c + c * returnRate - yearlyExpense * (1 + inflationRate) ^ year }

/-- `projections.findIndex(p => p.endingCorpus < 0)` (JS `-1` becomes `none`). -/
def sustainabilityYear (projections : List Projection) : Option ℕ :=
  firstHit (fun p => decide (p.endingCorpus < 0)) projections

/-- The sustainability insight of `generateInsights`: its severity and the age
named in the warning message (`currentAge + sustainabilityYear`); `none` for
the success message, which names no depletion age. -/
structure SustainabilityInsight where
  itype : InsightType
  depletionAge : Option ℕ
deriving DecidableEq

/-- Dispatch of the sustainability insight on `sustainabilityYear === -1`. -/
def sustainabilityInsight (currentAge : ℕ) (projections : List Projection) :
    SustainabilityInsight :=
  match sustainabilityYear projections with
  | none => ⟨.success, none⟩
  | some i => ⟨.warning, some (currentAge + i)⟩

end FD

namespace TaxDeferral

/-- One row of the tax-deferral `yearlyData`. -/
structure YearRow where
  year : ℕ
  taxDeferredAmount : ℚ
  taxableAmount : ℚ
  taxDeferredGrowth : ℚ
  taxableGrowth : ℚ
deriving DecidableEq

/-- `taxDeferredAmount` after `y` loop iterations:
`growth = amount*returnRate; amount += investment + growth`. -/
def taxDeferredAmount (investment returnRate : ℚ) : ℕ → ℚ
  | 0 => 0
  | y + 1 =>
    let a := taxDeferredAmount investment returnRate y
    let taxDeferredGrowth := a * returnRate
    a + (investment + taxDeferredGrowth)

/-- `taxableAmount` after `y` loop iterations: the contribution is taxed up
front (`investment*(1-currentTax)`) and each year's growth is taxed at
`currentTax`. -/
def taxableAmount (investment returnRate currentTax : ℚ) : ℕ → ℚ
  | 0 => 0
  | y + 1 =>
    let a := taxableAmount investment returnRate currentTax y
    let taxableInvestment := investment * (1 - currentTax)
    let taxableGrowth := a * returnRate
    let taxOnGrowth := taxableGrowth * currentTax
    a + (taxableInvestment + taxableGrowth - taxOnGrowth)

/-- The `yearlyData` array of `calculateDeferral` (rows `year = 1..years`,
amounts recorded after each year's update). -/
def yearlyData (investment returnRate currentTax : ℚ) (years : ℕ) : List YearRow :=
  (List.range years).map fun y =>
    { year := y + 1
      taxDeferredAmount := taxDeferredAmount investment returnRate (y + 1)
      taxableAmount := taxableAmount investment returnRate currentTax (y + 1)
      taxDeferredGrowth := taxDeferredAmount investment returnRate y * returnRate
      taxableGrowth := taxableAmount investment returnRate currentTax y * returnRate
        - taxableAmount investment returnRate currentTax y * returnRate * currentTax }

end TaxDeferral

namespace Equity

/-- Milliseconds in the 365.25-day Julian year used by `calculateReturns`. -/
def msPerYear : ℚ := 365.25 * 24 * 60 * 60 * 1000

/-- The parsed inputs of the equity-returns calculator; `investmentDate` is
the millisecond timestamp of `new Date(investmentDate)`. -/
structure EquityInputs where
  initialInvestment : ℚ
  currentValue : ℚ
  totalDividends : ℚ
  inflationRatePct : ℚ
  investmentDate : ℚ
deriving DecidableEq

/-- JS division, with `none` marking the non-finite value (`Infinity`/`NaN`)
JS produces when the denominator is exactly `0`; the code has no guard, so a
`none` here propagates into the displayed results. -/
def jsDiv (a b : ℚ) : Option ℚ :=
  if b = 0 then none else some (a / b)

/-- The rational-valued part of the `EquityResults` produced by
`calculateReturns`.  `annualizedReturn = (Math.pow((current+dividends)/initial,
1/years) - 1) * 100` takes a real exponent; the model records `cagrExponent =
1/years`, the exponent handed to `Math.pow` and the sole source of the
zero-duration failure. -/
structure EquityOutcome where
  yearsValue : ℚ
  absoluteReturn : ℚ
  cagrExponent : ℚ
  dividendYield : ℚ
  totalValue : ℚ
deriving DecidableEq

/-- `calculateReturns` of the equity-returns calculator.  It reads the clock:
`years = (new Date().getTime() - new Date(investmentDate).getTime()) /
(365.25*24*60*60*1000)`, so `todayMs` is an explicit argument here.  Every
division whose denominator can be `0` goes through `jsDiv`. -/
def calculateReturns (inp : EquityInputs) (todayMs : ℚ) : Option EquityOutcome := do
  let years := (todayMs - inp.investmentDate) / msPerYear
  let absoluteBase ← jsDiv (inp.currentValue - inp.initialInvestment + inp.totalDividends)
    inp.initialInvestment
  let cagrExponent ← jsDiv 1 years
  let dividendRatio ← jsDiv inp.totalDividends inp.initialInvestment
  let dividendYield ← jsDiv (dividendRatio * 100) years
  some { yearsValue := years
         absoluteReturn := absoluteBase * 100
         cagrExponent := cagrExponent
         dividendYield := dividendYield
         totalValue := inp.currentValue + inp.totalDividends }

end Equity

/-! ## Helper lemmas -/

theorem jsRound_mono {x y : ℚ} (h : x ≤ y) : jsRound x ≤ jsRound y := by
  unfold jsRound
  exact Int.floor_le_floor (by linarith)

theorem jsRound_nonneg {x : ℚ} (h : 0 ≤ x) : 0 ≤ jsRound x := by
  unfold jsRound
  have h0 : (0:ℤ) = ⌊(1/2 : ℚ)⌋ := by norm_num
  rw [h0]
  exact Int.floor_le_floor (by linarith)

theorem firstHit_eq_none_iff {α : Type} (pred : α → Bool) (l : List α) :
    firstHit pred l = none ↔ ∀ a ∈ l, pred a = false := by
  induction l with
  | nil => simp [firstHit]
  | cons a l ih =>
    cases hp : pred a with
    | true => simp [firstHit, hp]
    | false => simp [firstHit, hp, ih]

theorem firstHit_eq_some_iff {α : Type} (pred : α → Bool) (l : List α) (i : ℕ) :
    firstHit pred l = some i ↔
      ∃ h : i < l.length, pred (l.get ⟨i, h⟩) = true ∧
        ∀ j (hj : j < l.length), j < i → pred (l.get ⟨j, hj⟩) = false := by
  induction l generalizing i with
  | nil => simp [firstHit]
  | cons a l ih =>
    cases hp : pred a with
    | true =>
      cases i with
      | zero =>
        rw [firstHit, if_pos hp]
        constructor
        · intro _
          refine ⟨Nat.succ_pos _, by simpa using hp, ?_⟩
          intro j hj hj0
          exact absurd hj0 (Nat.not_lt_zero j)
        · intro _
          rfl
      | succ k =>
        rw [firstHit, if_pos hp]
        constructor
        · intro h
          exact absurd (Option.some.inj h) (by omega)
        · rintro ⟨h, -, hall⟩
          have h0 := hall 0 (Nat.succ_pos _) (Nat.succ_pos _)
          simp only [List.get] at h0
          rw [hp] at h0
          cases h0
    | false =>
      have hpne : ¬ pred a = true := by simp [hp]
      cases i with
      | zero =>
        rw [firstHit, if_neg hpne]
        constructor
        · intro h
          rcases Option.map_eq_some'.mp h with ⟨m, -, hm⟩
          omega
        · rintro ⟨h, h0, -⟩
          simp only [List.get] at h0
          rw [h0] at hp
          cases hp
      | succ k =>
        rw [firstHit, if_neg hpne]
        have hmap : (firstHit pred l).map (· + 1) = some (k + 1) ↔ firstHit pred l = some k := by
          cases hfh : firstHit pred l with
          | none => simp
          | some m =>
            simp only [Option.map_some', Option.some.injEq]
            omega
        rw [hmap, ih]
        constructor
        · rintro ⟨h, hget, hall⟩
          refine ⟨Nat.succ_lt_succ h, by simpa using hget, ?_⟩
          intro j hj hjk
          cases j with
          | zero => simpa using hp
          | succ m =>
            have hm := hall m (Nat.lt_of_succ_lt_succ hj) (Nat.lt_of_succ_lt_succ hjk)
            simpa using hm
        · rintro ⟨h, hget, hall⟩
          refine ⟨Nat.lt_of_succ_lt_succ h, by simpa using hget, ?_⟩
          intro j hj hjk
          have hm := hall (j + 1) (Nat.succ_lt_succ hj) (Nat.succ_lt_succ hjk)
          simpa using hm

/-! ## C1: EMI formula, guard and scenario -/

/-- Claim C1: For every EMI computation with parsed principal `P > 0`, annual rate
`R > 0` and term `T > 0` (whole years), the computed EMI is
`P * r * (1+r)^n / ((1+r)^n - 1)` with `r = R/100/12` and `n = T*12` (rounded
for display), and the stored total interest is the rounded `emi*n - P`; when
the principal, the rate or the term parses to zero or is unset, the function
returns without producing a result; for `P = 1000000`, `R = 10`, `T = 10` the
displayed payment is `13215` and the total interest is the rounded
`payment*120 - 1000000`. -/
theorem C1_emi_calculateResults_spec :
    (∀ (P R : ℚ) (T : ℕ), 0 < P → 0 < R → 0 < T →
      ∃ res : EMI.EMIResults,
        EMI.calculateResults (some P) (some R) (some T) = some res ∧
        res.emi = jsRound (P * (R / 100 / 12) * (1 + R / 100 / 12) ^ (T * 12) /
          ((1 + R / 100 / 12) ^ (T * 12) - 1)) ∧
        res.totalInterest
          = jsRound (EMI.emiValue P (R / 100 / 12) (T * 12) * ((T * 12 : ℕ) : ℚ) - P)) ∧
    (∀ (la ir : Option ℚ) (lt : Option ℕ),
      truthy la = false ∨ truthy ir = false ∨ lt = none ∨ lt = some 0 →
      EMI.calculateResults la ir lt = none) ∧
    (∃ res : EMI.EMIResults,
      EMI.calculateResults (some 1000000) (some 10) (some 10) = some res ∧
      res.emi = 13215 ∧
      res.totalInterest
        = jsRound (EMI.emiValue 1000000 ((10 : ℚ) / 100 / 12) 120 * 120 - 1000000)) := by
  have hrate : ∀ R : ℚ, R / 12 / 100 = R / 100 / 12 := fun R => by ring
  have hsome : ∀ (P R : ℚ) (T : ℕ), P ≠ 0 → R ≠ 0 → T ≠ 0 →
      EMI.calculateResults (some P) (some R) (some T)
        = some { emi := jsRound (EMI.emiValue P (R / 12 / 100) (12 * T))
                 totalAmount := jsRound (EMI.emiValue P (R / 12 / 100) (12 * T) * ((12 * T : ℕ) : ℚ))
                 totalInterest :=
                   jsRound (EMI.emiValue P (R / 12 / 100) (12 * T) * ((12 * T : ℕ) : ℚ) - P)
                 yearlyData := EMI.yearlyData P (R / 12 / 100) T } := by
    intro P R T hP hR hT
    have hc : ¬(P = 0 ∨ R / 12 / 100 = 0 ∨ 12 * T = 0) := by
      simp only [not_or]
      exact ⟨hP, div_ne_zero (div_ne_zero hR (by norm_num)) (by norm_num), by omega⟩
    simp only [EMI.calculateResults]
    rw [if_neg hc]
  refine ⟨?_, ?_, ?_⟩
  · intro P R T hP hR hT
    refine ⟨_, hsome P R T hP.ne' hR.ne' (by omega), ?_, ?_⟩
    · show jsRound (EMI.emiValue P (R / 12 / 100) (12 * T)) = _
      rw [hrate, Nat.mul_comm 12 T, EMI.emiValue]
    · show jsRound (EMI.emiValue P (R / 12 / 100) (12 * T) * ((12 * T : ℕ) : ℚ) - P) = _
      rw [hrate, Nat.mul_comm 12 T]
  · intro la ir lt h
    match la, ir, lt with
    | none, _, _ => rfl
    | some P, none, _ => rfl
    | some P, some R, none => rfl
    | some P, some R, some T =>
      simp only [truthy, bne_eq_false_iff_eq, Option.some.injEq, reduceCtorEq, false_or,
        or_false] at h
      simp only [EMI.calculateResults]
      rcases h with rfl | rfl | rfl
      · rw [if_pos (Or.inl rfl)]
      · rw [if_pos (Or.inr (Or.inl (by norm_num)))]
      · rw [if_pos (Or.inr (Or.inr (by norm_num)))]
  · refine ⟨_, hsome 1000000 10 10 (by norm_num) (by norm_num) (by norm_num), ?_, ?_⟩
    · show jsRound (EMI.emiValue 1000000 (10 / 12 / 100) (12 * 10)) = 13215
      rw [EMI.emiValue, jsRound, Int.floor_eq_iff]
      constructor <;> norm_num
    · show jsRound
          (EMI.emiValue 1000000 (10 / 12 / 100) (12 * 10) * ((12 * 10 : ℕ) : ℚ) - 1000000) = _
      rw [hrate]
      norm_num

/-- Witness for C1: the quantified parts applied at the scenario input and at
a zero principal. -/
theorem C1_emi_calculateResults_spec_witness :
    ((0:ℚ) < 1000000 ∧ (0:ℚ) < 10 ∧ 0 < 10) ∧
    (∃ res : EMI.EMIResults,
      EMI.calculateResults (some 1000000) (some 10) (some 10) = some res ∧
      res.emi = jsRound ((1000000 : ℚ) * (10 / 100 / 12) * (1 + 10 / 100 / 12) ^ (10 * 12) /
        ((1 + 10 / 100 / 12) ^ (10 * 12) - 1)) ∧
      res.totalInterest
        = jsRound (EMI.emiValue 1000000 ((10:ℚ) / 100 / 12) (10 * 12) * ((10 * 12 : ℕ) : ℚ)
            - 1000000)) ∧
    EMI.calculateResults (some 0) (some 10) (some 10) = none :=
  ⟨⟨by norm_num, by norm_num, by norm_num⟩,
   C1_emi_calculateResults_spec.1 1000000 10 10 (by norm_num) (by norm_num) (by norm_num),
   C1_emi_calculateResults_spec.2.1 (some 0) (some 10) (some 10)
     (Or.inl (by simp [truthy]))⟩

/-! ## C2: SIP annuity-due closed form and scenario -/

/-- Claim C2: For every SIP computation with monthly investment `c`, `y` years and
expected annual return `R`, the future value is the annuity-due closed form
`c * ((1+r)^n - 1)/r * (1+r)` with `r = R/(12*100)` and `n = y*12`, and the
invested amount is `c * n`; for `c = 5000`, `y = 10`, `R = 12` the future
value rounds to `1161695` and the invested amount is `600000`. -/
theorem C2_sip_calculateSIP_spec :
    (∀ (c R : ℚ) (y : ℕ),
      (SIP.calculateSIP c y R).futureValue
        = c * (((1 + R / (12 * 100)) ^ (y * 12) - 1) / (R / (12 * 100))) * (1 + R / (12 * 100)) ∧
      (SIP.calculateSIP c y R).investedAmount = c * ((y * 12 : ℕ) : ℚ)) ∧
    ((SIP.calculateSIP 5000 10 12).investedAmount = 600000 ∧
     jsRound (SIP.calculateSIP 5000 10 12).futureValue = 1161695) := by
  refine ⟨fun c R y => ⟨rfl, rfl⟩, ?_, ?_⟩
  · show (5000 : ℚ) * ((10 * 12 : ℕ) : ℚ) = 600000
    norm_num
  · show jsRound (SIP.projectedValueAt 5000 (12 / (12 * 100)) (10 * 12)) = 1161695
    rw [SIP.projectedValueAt, jsRound, Int.floor_eq_iff]
    constructor <;> norm_num

/-! ## C6: flat 20% capital-gains tax, date-independent -/

/-- Claim C6: For every capital-gains computation with all four fields filled, the
capital gain is `salePrice - purchasePrice` and the tax liability is exactly
`0.20` times that gain; the result does not depend on the purchase and sale
dates; purchase `500000` and sale `800000` yield gain `300000` and tax
`60000`. -/
theorem C6_taxcalc_calculateTax_spec :
    (∀ (purchase sale : ℚ) (d1 d2 : ℤ),
      ∃ res : TaxCalc.TaxResults,
        TaxCalc.calculateTax (some purchase) (some sale) (some d1) (some d2) = some res ∧
        res.capitalGains = sale - purchase ∧
        res.taxLiability = 0.20 * (sale - purchase)) ∧
    (∀ (purchase sale : ℚ) (d1 d2 d1' d2' : ℤ),
      TaxCalc.calculateTax (some purchase) (some sale) (some d1) (some d2)
        = TaxCalc.calculateTax (some purchase) (some sale) (some d1') (some d2')) ∧
    (∃ res : TaxCalc.TaxResults,
      TaxCalc.calculateTax (some 500000) (some 800000) (some 0) (some 0) = some res ∧
      res.capitalGains = 300000 ∧ res.taxLiability = 60000) := by
  refine ⟨?_, ?_, ?_⟩
  · intro purchase sale d1 d2
    exact ⟨_, rfl, rfl, mul_comm _ _⟩
  · intro purchase sale d1 d2 d1' d2'
    rfl
  · refine ⟨_, rfl, by norm_num, ?_⟩
    show (800000 - 500000 : ℚ) * 0.20 = 60000
    norm_num

/-! ## C3: yearly reinvestment recurrences of First-Crore and FIRE -/

/-- Claim C3, counterexample: The First-Crore projection does not follow
`amount' = amount*(1+r) + yearlyContribution`: with no initial savings,
monthly investment `1000` and rate `10%`, the first projected value is
`12600` (the source credits returns on `amount + yearlyInvestment/2`),
while the claimed recurrence gives `12000`. -/
theorem C3_firstcrore_recurrence_counterexample :
    (FirstCrore.yearlyData 0 1000 (1/10) 1).map FirstCrore.YearRow.projectedValue = [12600] ∧
    FirstCrore.currentAmount 0 1000 (1/10) 0 * (1 + 1/10) + 1000 * 12 = 12000 ∧
    (12600 : ℚ) ≠ 12000 := by
  refine ⟨?_, ?_, by norm_num⟩
  · show [FirstCrore.YearRow.projectedValue
      { year := 1
        investedAmount := FirstCrore.totalInvested 0 1000 1
        projectedValue := FirstCrore.currentAmount 0 1000 (1/10) 1
        yearlyReturns := (FirstCrore.currentAmount 0 1000 (1/10) 0 + 1000 * 12 / 2) * (1/10) }]
      = [12600]
    simp only [FirstCrore.YearRow.projectedValue, FirstCrore.currentAmount]
    norm_num
  · simp only [FirstCrore.currentAmount]
    norm_num

/-- Claim C3, amended: For every year of the FIRE projection the accumulated corpus
follows `amount' = amount*(1+r) + yearlyContribution` (returns on the
beginning-of-year balance only), with `yearlyContribution` the monthly
contribution times 12; the First-Crore projection instead follows
`amount' = amount*(1+r) + yearlyContribution + (yearlyContribution/2)*r`
(returns on the beginning balance plus half the year's contribution); each
projection row records the recurrence value for its year. -/
theorem C3_yearly_recurrences :
    (∀ (s m r : ℚ) (y : ℕ),
      FIRE.corpusAfter s m r (y + 1) = FIRE.corpusAfter s m r y * (1 + r) + m * 12) ∧
    (∀ (i m r : ℚ) (y : ℕ),
      FirstCrore.currentAmount i m r (y + 1)
        = FirstCrore.currentAmount i m r y * (1 + r) + m * 12 + (m * 12 / 2) * r) ∧
    (∀ (ca : ℕ) (s m r infl me : ℚ) (Y y : ℕ),
      ((FIRE.projections ca s m r infl me Y)[y]?).map FIRE.ProjectionRow.totalCorpus
        = if y < Y + 1 then some (FIRE.corpusAfter s m r (y + 1)) else none) ∧
    (∀ (i m r : ℚ) (Y y : ℕ),
      ((FirstCrore.yearlyData i m r Y)[y]?).map FirstCrore.YearRow.projectedValue
        = if y < Y then some (FirstCrore.currentAmount i m r (y + 1)) else none) := by
  refine ⟨?_, ?_, ?_, ?_⟩
  · intro s m r y
    simp only [FIRE.corpusAfter]
    ring
  · intro i m r y
    simp only [FirstCrore.currentAmount]
    ring
  · intro ca s m r infl me Y y
    by_cases hy : y < Y + 1
    · rw [if_pos hy]
      rw [FIRE.projections, List.getElem?_map, List.getElem?_range hy]
      rfl
    · rw [if_neg hy]
      rw [FIRE.projections, List.getElem?_map]
      rw [List.getElem?_eq_none (by simpa using hy)]
      rfl
  · intro i m r Y y
    by_cases hy : y < Y
    · rw [if_pos hy]
      rw [FirstCrore.yearlyData, List.getElem?_map, List.getElem?_range hy]
      rfl
    · rw [if_neg hy]
      rw [FirstCrore.yearlyData, List.getElem?_map]
      rw [List.getElem?_eq_none (by simpa using hy)]
      rfl

/-! ## C4: FD-sustainability projection and depletion insight -/

/-- Claim C4: Every projected year of the FD-sustainability calculator satisfies
`interest = corpus*returnRate`, `endingCorpus = corpus + interest -
inflatedExpense` with `inflatedExpense = yearlyExpense*(1+inflation)^year`,
and the ending corpus is carried into the next year; the depletion year is the
first row whose ending corpus is `< 0`; when no row in the horizon has a
negative ending corpus a success insight (naming no depletion age) is emitted,
otherwise a warning insight naming age `currentAge + year` of the first such
row is emitted. -/
theorem C4_fd_sustainability_spec :
    (∀ (c0 rr ir ye : ℚ) (ca H y : ℕ),
      (FD.calculateProjection c0 rr ir ye ca H)[y]? =
        if y < H + 1 then
          some { year := y
                 age := ca + y
                 startingCorpus := FD.corpusAt c0 rr ir ye y
                 investmentReturns := FD.corpusAt c0 rr ir ye y * rr
                 expenses := ye * (1 + ir) ^ y
                 endingCorpus := FD.corpusAt c0 rr ir ye y + FD.corpusAt c0 rr ir ye y * rr
                   - ye * (1 + ir) ^ y }
        else none) ∧
    (∀ (c0 rr ir ye : ℚ) (y : ℕ),
      FD.corpusAt c0 rr ir ye (y + 1)
        = FD.corpusAt c0 rr ir ye y + FD.corpusAt c0 rr ir ye y * rr - ye * (1 + ir) ^ y) ∧
    (∀ (projections : List FD.Projection) (ca : ℕ),
      (FD.sustainabilityYear projections = none ↔
        ∀ p ∈ projections, ¬ p.endingCorpus < 0) ∧
      (FD.sustainabilityYear projections = none →
        FD.sustainabilityInsight ca projections = ⟨.success, none⟩) ∧
      (∀ i, FD.sustainabilityYear projections = some i →
        FD.sustainabilityInsight ca projections = ⟨.warning, some (ca + i)⟩ ∧
        ∃ h : i < projections.length, (projections.get ⟨i, h⟩).endingCorpus < 0 ∧
          ∀ j (hj : j < projections.length), j < i →
            ¬ (projections.get ⟨j, hj⟩).endingCorpus < 0)) := by
  refine ⟨?_, ?_, ?_⟩
  · intro c0 rr ir ye ca H y
    by_cases hy : y < H + 1
    · rw [if_pos hy]
      rw [FD.calculateProjection, List.getElem?_map, List.getElem?_range hy]
      rfl
    · rw [if_neg hy]
      rw [FD.calculateProjection, List.getElem?_map]
      rw [List.getElem?_eq_none (by simpa using hy)]
      rfl
  · intro c0 rr ir ye y
    simp only [FD.corpusAt]
  · intro projections ca
    refine ⟨?_, ?_, ?_⟩
    · rw [FD.sustainabilityYear, firstHit_eq_none_iff]
      simp
    · intro h
      rw [FD.sustainabilityInsight, h]
    · intro i h
      constructor
      · rw [FD.sustainabilityInsight, h]
      · rcases (firstHit_eq_some_iff _ _ _).mp h with ⟨hlen, hget, hall⟩
        refine ⟨hlen, of_decide_eq_true hget, ?_⟩
        intro j hj hji
        have hf := hall j hj hji
        exact of_decide_eq_false hf

/-- Witness for C4: a corpus of `100` facing a yearly expense of `200` with no
returns depletes in its first projected year; the insight warns at age `40`. -/
theorem C4_fd_sustainability_spec_witness :
    FD.sustainabilityYear (FD.calculateProjection 100 0 0 200 40 1) = some 0 ∧
    (FD.sustainabilityInsight 40 (FD.calculateProjection 100 0 0 200 40 1)
        = ⟨.warning, some 40⟩ ∧
      ∃ h : 0 < (FD.calculateProjection 100 0 0 200 40 1).length,
        ((FD.calculateProjection 100 0 0 200 40 1).get ⟨0, h⟩).endingCorpus < 0 ∧
        ∀ j (hj : j < (FD.calculateProjection 100 0 0 200 40 1).length), j < 0 →
          ¬ ((FD.calculateProjection 100 0 0 200 40 1).get ⟨j, hj⟩).endingCorpus < 0) := by
  have hS : FD.sustainabilityYear (FD.calculateProjection 100 0 0 200 40 1) = some 0 := by
    rw [FD.sustainabilityYear, FD.calculateProjection]
    have h2 : List.range 2 = [0, 1] := rfl
    rw [h2]
    simp only [List.map_cons, List.map_nil, firstHit]
    rw [if_pos]
    simp only [decide_eq_true_eq, FD.corpusAt]
    norm_num
  exact ⟨hS, (C4_fd_sustainability_spec.2.2 (FD.calculateProjection 100 0 0 200 40 1) 40).2.2
    0 hS⟩

/-! ## C7: EMI schedule invariants -/

theorem emi_stateAfter_succ (P rate : ℚ) (time y : ℕ) :
    (EMI.stateAfter P rate time (y + 1)).remainingBalance
      = max 0 ((EMI.stateAfter P rate time y).remainingBalance - P * 12 / (time : ℚ)) := by
  simp only [EMI.stateAfter, EMI.scheduleStep]
  congr 1
  ring

theorem emi_rb_nonneg (P rate : ℚ) (time : ℕ) (hP : 0 ≤ P) (y : ℕ) :
    0 ≤ (EMI.stateAfter P rate time y).remainingBalance := by
  induction y with
  | zero => exact hP
  | succ y ih =>
    rw [emi_stateAfter_succ]
    exact le_max_left 0 _

theorem emi_rb_antitone (P rate : ℚ) (time : ℕ) (hP : 0 ≤ P)
    (hd : 0 ≤ P * 12 / (time : ℚ)) {a b : ℕ} (h : a ≤ b) :
    (EMI.stateAfter P rate time b).remainingBalance
      ≤ (EMI.stateAfter P rate time a).remainingBalance := by
  induction b, h using Nat.le_induction with
  | base => exact le_refl _
  | succ b hb ih =>
    refine le_trans ?_ ih
    rw [emi_stateAfter_succ]
    exact max_le (emi_rb_nonneg P rate time hP b) (by linarith)

theorem emi_rb_le (P rate : ℚ) (time : ℕ) (hP : 0 ≤ P)
    (hd : 0 ≤ P * 12 / (time : ℚ)) (y : ℕ) :
    (EMI.stateAfter P rate time y).remainingBalance
      ≤ max 0 (P - (y : ℚ) * (P * 12 / (time : ℚ))) := by
  induction y with
  | zero =>
    have h0 : P - ((0 : ℕ) : ℚ) * (P * 12 / (time : ℚ)) = P := by push_cast; ring
    rw [h0]
    exact le_max_right 0 P
  | succ y ih =>
    rw [emi_stateAfter_succ]
    apply max_le (le_max_left 0 _)
    have h1 : (EMI.stateAfter P rate time y).remainingBalance - P * 12 / (time : ℚ)
        ≤ max 0 (P - (y : ℚ) * (P * 12 / (time : ℚ))) - P * 12 / (time : ℚ) := by linarith
    have h2 : max 0 (P - (y : ℚ) * (P * 12 / (time : ℚ))) - P * 12 / (time : ℚ)
        ≤ max 0 (P - ((y : ℚ) + 1) * (P * 12 / (time : ℚ))) := by
      rw [← max_sub_sub_right]
      apply max_le
      · calc (0 : ℚ) - P * 12 / (time : ℚ) ≤ 0 := by linarith
          _ ≤ max 0 (P - ((y : ℚ) + 1) * (P * 12 / (time : ℚ))) := le_max_left 0 _
      · calc P - (y : ℚ) * (P * 12 / (time : ℚ)) - P * 12 / (time : ℚ)
            = P - ((y : ℚ) + 1) * (P * 12 / (time : ℚ)) := by ring
          _ ≤ max 0 (P - ((y : ℚ) + 1) * (P * 12 / (time : ℚ))) := le_max_right 0 _
    push_cast
    exact h1.trans h2

theorem emi_rb_final (P rate : ℚ) (T : ℕ) (hP : 0 ≤ P) (hT : 1 ≤ T) :
    (EMI.stateAfter P rate (12 * T) T).remainingBalance = 0 := by
  have hTq : (0 : ℚ) < (T : ℚ) := by exact_mod_cast Nat.lt_of_lt_of_le Nat.zero_lt_one hT
  have hd : 0 ≤ P * 12 / (((12 * T : ℕ)) : ℚ) := by
    apply div_nonneg (by linarith)
    push_cast
    positivity
  have hle := emi_rb_le P rate (12 * T) hP hd T
  have hTd : P - (T : ℚ) * (P * 12 / (((12 * T : ℕ)) : ℚ)) = 0 := by
    push_cast
    field_simp
    ring
  rw [hTd] at hle
  simp only [max_self] at hle
  exact le_antisymm hle (emi_rb_nonneg P rate (12 * T) hP T)

theorem emi_yearlyData_get (P rate : ℚ) (T y : ℕ) (h : y < (EMI.yearlyData P rate T).length) :
    (EMI.yearlyData P rate T).get ⟨y, h⟩
      = EMI.mkRow P (y + 1) (EMI.stateAfter P rate (12 * T) (y + 1)) := by
  simp only [EMI.yearlyData, List.get_eq_getElem, List.getElem_map]
  rw [List.getElem_range]

/-- Claim C7: For every EMI schedule with positive principal and a term of at
least one year: the rounded `remainingBalance` is non-increasing across the
yearly rows and never negative, and the final row's remaining balance is
exactly `0` — so its recorded `principalPaid` (principal minus final remaining
balance, yearly principal approximated as `principal*12/n`) is the rounded
principal. -/
theorem C7_emi_schedule_invariants (P rate : ℚ) (T : ℕ) (hP : 0 < P) (hT : 1 ≤ T) :
    (∀ (i j : ℕ) (hi : i < (EMI.yearlyData P rate T).length)
        (hj : j < (EMI.yearlyData P rate T).length), i ≤ j →
      ((EMI.yearlyData P rate T).get ⟨j, hj⟩).remainingBalance
        ≤ ((EMI.yearlyData P rate T).get ⟨i, hi⟩).remainingBalance) ∧
    (∀ row ∈ EMI.yearlyData P rate T, 0 ≤ row.remainingBalance) ∧
    (∀ h : T - 1 < (EMI.yearlyData P rate T).length,
      ((EMI.yearlyData P rate T).get ⟨T - 1, h⟩).remainingBalance = 0 ∧
      ((EMI.yearlyData P rate T).get ⟨T - 1, h⟩).principalPaid = jsRound P) := by
  have hd : 0 ≤ P * 12 / (((12 * T : ℕ)) : ℚ) := by
    apply div_nonneg (by linarith)
    push_cast
    positivity
  refine ⟨?_, ?_, ?_⟩
  · intro i j hi hj hij
    rw [emi_yearlyData_get, emi_yearlyData_get]
    simp only [EMI.mkRow]
    exact jsRound_mono (emi_rb_antitone P rate (12 * T) hP.le hd (Nat.succ_le_succ hij))
  · intro row hrow
    rcases List.mem_iff_get.mp hrow with ⟨⟨y, hy⟩, rfl⟩
    rw [emi_yearlyData_get]
    simp only [EMI.mkRow]
    exact jsRound_nonneg (emi_rb_nonneg P rate (12 * T) hP.le (y + 1))
  · intro h
    have hT1 : T - 1 + 1 = T := by omega
    rw [emi_yearlyData_get]
    simp only [EMI.mkRow]
    rw [hT1, emi_rb_final P rate T hP.le hT]
    constructor
    · show (⌊(0 : ℚ) + 1/2⌋ : ℤ) = 0
      norm_num
    · rw [sub_zero]

/-- Witness for C7: the invariants instantiated on the ₹1,000,000 / 10-year
schedule at 10% (monthly rate `10/12/100`). -/
theorem C7_emi_schedule_invariants_witness :
    ((0 : ℚ) < 1000000 ∧ (1 : ℕ) ≤ 10) ∧
    ((∀ (i j : ℕ) (hi : i < (EMI.yearlyData 1000000 (10/12/100) 10).length)
        (hj : j < (EMI.yearlyData 1000000 (10/12/100) 10).length), i ≤ j →
      ((EMI.yearlyData 1000000 (10/12/100) 10).get ⟨j, hj⟩).remainingBalance
        ≤ ((EMI.yearlyData 1000000 (10/12/100) 10).get ⟨i, hi⟩).remainingBalance) ∧
    (∀ row ∈ EMI.yearlyData 1000000 (10/12/100) 10, 0 ≤ row.remainingBalance) ∧
    (∀ h : 10 - 1 < (EMI.yearlyData 1000000 (10/12/100) 10).length,
      ((EMI.yearlyData 1000000 (10/12/100) 10).get ⟨10 - 1, h⟩).remainingBalance = 0 ∧
      ((EMI.yearlyData 1000000 (10/12/100) 10).get ⟨10 - 1, h⟩).principalPaid
        = jsRound 1000000)) :=
  ⟨⟨by norm_num, by norm_num⟩,
   C7_emi_schedule_invariants 1000000 (10/12/100) 10 (by norm_num) (by norm_num)⟩

/-! ## C5: Buy-vs-Rent break-even is the first crossing -/

theorem buyingAhead_iff (r : BuyVsRent.YearRow) :
    BuyVsRent.buyingAhead r = true ↔ r.rentingNetWorth < r.buyingNetWorth := by
  simp [BuyVsRent.buyingAhead]

theorem buyrent_runFrom_frozen (p : BuyVsRent.Params) (b : ℕ) :
    ∀ (fuel year : ℕ) (s : BuyVsRent.LoopState), s.breakEvenYear = some b →
      (BuyVsRent.runFrom p s year fuel).2.breakEvenYear = some b := by
  intro fuel
  induction fuel with
  | zero =>
    intro year s hs
    simpa [BuyVsRent.runFrom] using hs
  | succ f ih =>
    intro year s hs
    simp only [BuyVsRent.runFrom]
    apply ih
    simp only [BuyVsRent.yearStep]
    rw [if_neg (by simp [hs])]
    exact hs

theorem buyrent_runFrom_breakEven (p : BuyVsRent.Params) :
    ∀ (fuel year : ℕ) (s : BuyVsRent.LoopState), s.breakEvenYear = none →
      (BuyVsRent.runFrom p s year fuel).2.breakEvenYear
        = (firstHit BuyVsRent.buyingAhead (BuyVsRent.runFrom p s year fuel).1).map (year + ·) := by
  intro fuel
  induction fuel with
  | zero =>
    intro year s hs
    simpa [BuyVsRent.runFrom, firstHit] using hs
  | succ f ih =>
    intro year s hs
    simp only [BuyVsRent.runFrom]
    cases hb : BuyVsRent.buyingAhead (BuyVsRent.yearStep p year s).1 with
    | true =>
      have hbe : (BuyVsRent.yearStep p year s).2.breakEvenYear = some year := by
        have hlt : (BuyVsRent.yearStep p year s).1.rentingNetWorth
            < (BuyVsRent.yearStep p year s).1.buyingNetWorth := by
          have := of_decide_eq_true hb
          exact this
        simp only [BuyVsRent.yearStep] at hlt ⊢
        rw [if_pos ⟨hlt, hs⟩]
      rw [buyrent_runFrom_frozen p year f (year + 1) _ hbe]
      rw [firstHit, if_pos hb]
      simp
    | false =>
      have hbe : (BuyVsRent.yearStep p year s).2.breakEvenYear = none := by
        have hnlt : ¬ (BuyVsRent.yearStep p year s).1.rentingNetWorth
            < (BuyVsRent.yearStep p year s).1.buyingNetWorth := by
          intro hlt
          rw [(buyingAhead_iff _).mpr hlt] at hb
          cases hb
        simp only [BuyVsRent.yearStep] at hnlt ⊢
        rw [if_neg (by tauto)]
        exact hs
      rw [ih (year + 1) _ hbe]
      rw [firstHit, if_neg (by simp [hb])]
      cases hfh : firstHit BuyVsRent.buyingAhead (BuyVsRent.runFrom p (BuyVsRent.yearStep p year s).2 (year + 1) f).1 with
      | none => rfl
      | some m =>
        simp only [Option.map_some', Option.some.injEq]
        omega

theorem buyrent_runFrom_rows (p : BuyVsRent.Params) :
    ∀ (fuel year : ℕ) (s : BuyVsRent.LoopState) (i : ℕ)
      (h : i < (BuyVsRent.runFrom p s year fuel).1.length),
      ((BuyVsRent.runFrom p s year fuel).1.get ⟨i, h⟩).year = year + i ∧
      ((BuyVsRent.runFrom p s year fuel).1.get ⟨i, h⟩).buyingNetWorth
        = ((BuyVsRent.runFrom p s year fuel).1.get ⟨i, h⟩).propertyValue
          - ((BuyVsRent.runFrom p s year fuel).1.get ⟨i, h⟩).loanBalance ∧
      ((BuyVsRent.runFrom p s year fuel).1.get ⟨i, h⟩).rentingNetWorth
        = ((BuyVsRent.runFrom p s year fuel).1.get ⟨i, h⟩).investmentValue := by
  intro fuel
  induction fuel with
  | zero =>
    intro year s i h
    simp [BuyVsRent.runFrom] at h
  | succ f ih =>
    intro year s i h
    cases i with
    | zero =>
      refine ⟨rfl, rfl, rfl⟩
    | succ i' =>
      have h' : i' < (BuyVsRent.runFrom p (BuyVsRent.yearStep p year s).2 (year + 1) f).1.length := by
        simpa [BuyVsRent.runFrom] using h
      have hih := ih (year + 1) (BuyVsRent.yearStep p year s).2 i' h'
      refine ⟨?_, hih.2.1, hih.2.2⟩
      have hyr : year + (i' + 1) = year + 1 + i' := by omega
      rw [hyr]
      exact hih.1

/-- Claim C5: For every Buy-vs-Rent comparison, `breakEvenYear` is the first year
(rows are years `1..loanTerm`) in which the buying net worth (property value
minus loan balance) strictly exceeds the renting net worth (the compounded
investment value), and it is `null` exactly when no year of the horizon has
buying ahead. -/
theorem C5_buyvsrent_breakeven_spec (p : BuyVsRent.Params) :
    ((BuyVsRent.calculateComparison p).2
      = (firstHit BuyVsRent.buyingAhead (BuyVsRent.calculateComparison p).1).map (1 + ·)) ∧
    ((BuyVsRent.calculateComparison p).2 = none ↔
      ∀ r ∈ (BuyVsRent.calculateComparison p).1, ¬ r.rentingNetWorth < r.buyingNetWorth) ∧
    (∀ i, (BuyVsRent.calculateComparison p).2 = some (1 + i) →
      ∃ h : i < (BuyVsRent.calculateComparison p).1.length,
        ((BuyVsRent.calculateComparison p).1.get ⟨i, h⟩).rentingNetWorth
          < ((BuyVsRent.calculateComparison p).1.get ⟨i, h⟩).buyingNetWorth ∧
        ∀ j (hj : j < (BuyVsRent.calculateComparison p).1.length), j < i →
          ¬ ((BuyVsRent.calculateComparison p).1.get ⟨j, hj⟩).rentingNetWorth
            < ((BuyVsRent.calculateComparison p).1.get ⟨j, hj⟩).buyingNetWorth) ∧
    (∀ i (h : i < (BuyVsRent.calculateComparison p).1.length),
      ((BuyVsRent.calculateComparison p).1.get ⟨i, h⟩).year = 1 + i) ∧
    (∀ r ∈ (BuyVsRent.calculateComparison p).1,
      r.buyingNetWorth = r.propertyValue - r.loanBalance ∧
      r.rentingNetWorth = r.investmentValue) := by
  have hmain : (BuyVsRent.calculateComparison p).2
      = (firstHit BuyVsRent.buyingAhead (BuyVsRent.calculateComparison p).1).map (1 + ·) :=
    buyrent_runFrom_breakEven p p.years 1 (BuyVsRent.initState p) rfl
  refine ⟨hmain, ?_, ?_, ?_, ?_⟩
  · rw [hmain]
    cases hfh : firstHit BuyVsRent.buyingAhead (BuyVsRent.calculateComparison p).1 with
    | none =>
      simp only [Option.map_none', true_iff]
      intro r hr hlt
      have hfr := (firstHit_eq_none_iff _ _).mp hfh r hr
      rw [(buyingAhead_iff r).mpr hlt] at hfr
      cases hfr
    | some m =>
      simp only [Option.map_some', reduceCtorEq, false_iff]
      intro hall
      rcases (firstHit_eq_some_iff _ _ _).mp hfh with ⟨hm, hget, -⟩
      exact hall _ (List.get_mem _ _ _) ((buyingAhead_iff _).mp hget)
  · intro i hi
    rw [hmain] at hi
    rcases Option.map_eq_some'.mp hi with ⟨m, hm, hmi⟩
    have hmi' : m = i := by omega
    rw [hmi'] at hm
    rcases (firstHit_eq_some_iff _ _ _).mp hm with ⟨h, hget, hall⟩
    refine ⟨h, of_decide_eq_true hget, ?_⟩
    intro j hj hji
    have := hall j hj hji
    exact of_decide_eq_false this
  · intro i h
    exact (buyrent_runFrom_rows p p.years 1 (BuyVsRent.initState p) i h).1
  · intro r hr
    rcases List.mem_iff_get.mp hr with ⟨⟨i, hi⟩, rfl⟩
    exact (buyrent_runFrom_rows p p.years 1 (BuyVsRent.initState p) i hi).2

/-- Witness for C5: with a fully paid property (`down = price`) that doubles in
its single projected year and a counterfactual investment earning nothing,
buying overtakes renting in year 1, the first (and only) year. -/
theorem C5_buyvsrent_breakeven_spec_witness :
    (BuyVsRent.calculateComparison
      { price := 100, down := 100, years := 1, interestRatePct := 1200, rent := 0,
        rentGrowth := 0, appreciation := 1, investment := 0, maintenance := 0 }).2
      = some (1 + 0) ∧
    (∃ h : 0 < (BuyVsRent.calculateComparison
        { price := 100, down := 100, years := 1, interestRatePct := 1200, rent := 0,
          rentGrowth := 0, appreciation := 1, investment := 0, maintenance := 0 }).1.length,
      ((BuyVsRent.calculateComparison
        { price := 100, down := 100, years := 1, interestRatePct := 1200, rent := 0,
          rentGrowth := 0, appreciation := 1, investment := 0, maintenance := 0 }).1.get
            ⟨0, h⟩).rentingNetWorth
        < ((BuyVsRent.calculateComparison
        { price := 100, down := 100, years := 1, interestRatePct := 1200, rent := 0,
          rentGrowth := 0, appreciation := 1, investment := 0, maintenance := 0 }).1.get
            ⟨0, h⟩).buyingNetWorth ∧
      ∀ j (hj : j < (BuyVsRent.calculateComparison
        { price := 100, down := 100, years := 1, interestRatePct := 1200, rent := 0,
          rentGrowth := 0, appreciation := 1, investment := 0, maintenance := 0 }).1.length),
        j < 0 →
        ¬ ((BuyVsRent.calculateComparison
        { price := 100, down := 100, years := 1, interestRatePct := 1200, rent := 0,
          rentGrowth := 0, appreciation := 1, investment := 0, maintenance := 0 }).1.get
            ⟨j, hj⟩).rentingNetWorth
          < ((BuyVsRent.calculateComparison
        { price := 100, down := 100, years := 1, interestRatePct := 1200, rent := 0,
          rentGrowth := 0, appreciation := 1, investment := 0, maintenance := 0 }).1.get
            ⟨j, hj⟩).buyingNetWorth) := by
  have hbe : (BuyVsRent.calculateComparison
      { price := 100, down := 100, years := 1, interestRatePct := 1200, rent := 0,
        rentGrowth := 0, appreciation := 1, investment := 0, maintenance := 0 }).2
      = some (1 + 0) := by
    show (BuyVsRent.runFrom _ (BuyVsRent.initState _) 1 1).2.breakEvenYear = some (1 + 0)
    simp only [BuyVsRent.runFrom, BuyVsRent.yearStep, BuyVsRent.initState,
      BuyVsRent.monthlyPayment]
    rw [if_pos]
    refine ⟨?_, trivial⟩
    norm_num
  exact ⟨hbe, (C5_buyvsrent_breakeven_spec _).2.2.1 0 hbe⟩

/-! ## C8: zero-duration equity span produces a non-finite result -/

/-- Claim C8, failing input: With the investment date equal to today
(`years = 0`), `calculateReturns` has no guard: the CAGR exponent `1/years`
divides by zero, so a non-finite value (modelled `none`) propagates into the
result instead of a defined fallback or "not computable" indicator. -/
theorem C8_equity_zero_duration_not_guarded :
    Equity.calculateReturns
      { initialInvestment := 100000, currentValue := 200000, totalDividends := 0,
        inflationRatePct := 6, investmentDate := 1700000000000 } 1700000000000 = none ∧
    (1700000000000 - (1700000000000 : ℚ)) / Equity.msPerYear = 0 := by
  constructor
  · simp only [Equity.calculateReturns, Equity.jsDiv, Equity.msPerYear]
    norm_num
  · norm_num

/-! ## C9: determinism, hidden state and the wall clock -/

/-- Claim C9, counterexample: The equity-returns computation is not a function of
its `InputSet` alone: the same inputs evaluated one year and two years after
the investment date give different results (the dividend yield halves), so
"bit-identical results for the same inputs, independent of the wall-clock
date" fails. -/
theorem C9_equity_wallclock_counterexample :
    Equity.calculateReturns
      { initialInvestment := 100000, currentValue := 200000, totalDividends := 10000,
        inflationRatePct := 6, investmentDate := 0 } Equity.msPerYear
      ≠ Equity.calculateReturns
      { initialInvestment := 100000, currentValue := 200000, totalDividends := 10000,
        inflationRatePct := 6, investmentDate := 0 } (2 * Equity.msPerYear) := by
  have h1 : Equity.calculateReturns
      { initialInvestment := 100000, currentValue := 200000, totalDividends := 10000,
        inflationRatePct := 6, investmentDate := 0 } Equity.msPerYear
      = some { yearsValue := 1, absoluteReturn := 110, cagrExponent := 1,
               dividendYield := 10, totalValue := 210000 } := by
    simp only [Equity.calculateReturns, Equity.jsDiv, Equity.msPerYear]
    norm_num
  have h2 : Equity.calculateReturns
      { initialInvestment := 100000, currentValue := 200000, totalDividends := 10000,
        inflationRatePct := 6, investmentDate := 0 } (2 * Equity.msPerYear)
      = some { yearsValue := 2, absoluteReturn := 110, cagrExponent := 1/2,
               dividendYield := 5, totalValue := 210000 } := by
    simp only [Equity.calculateReturns, Equity.jsDiv, Equity.msPerYear]
    norm_num
  rw [h1, h2]
  simp only [ne_eq, Option.some.injEq, Equity.EquityOutcome.mk.injEq]
  norm_num

/-- Claim C9, amended: Each compute function is a deterministic function of its
parsed inputs together with — for the equity-returns calculator — the current
date; in particular the First-Crore handler, although its loop reads the
previously stored `results` state, always ends with the unconditional final
`setResults`, so the stored results after a click are independent of the
previous results state. -/
theorem C9_firstcrore_results_state_independent :
    ∀ (prev1 prev2 : Bool) (initial monthly rate : ℚ) (years : ℕ),
      FirstCrore.storedResults prev1 initial monthly rate years
        = FirstCrore.storedResults prev2 initial monthly rate years ∧
      FirstCrore.storedResults prev1 initial monthly rate years
        = some (FirstCrore.finalResult initial monthly rate years) := by
  have hlast : ∀ (b : Bool) (i m r : ℚ) (Y : ℕ),
      FirstCrore.storedResults b i m r Y = some (FirstCrore.finalResult i m r Y) := by
    intro b i m r Y
    rw [FirstCrore.storedResults, FirstCrore.setResultsQueue, List.getLast?_concat]
  intro prev1 prev2 i m r Y
  refine ⟨?_, hlast prev1 i m r Y⟩
  rw [hlast, hlast]

/-! ## C10: tax-deferred balance dominates the taxable balance -/

theorem taxdeferral_taxable_nonneg (I r t : ℚ) (hI : 0 ≤ I) (hr : 0 ≤ r)
    (ht0 : 0 ≤ t) (ht1 : t ≤ 1) (y : ℕ) :
    0 ≤ TaxDeferral.taxableAmount I r t y := by
  induction y with
  | zero => exact le_refl 0
  | succ y ih =>
    simp only [TaxDeferral.taxableAmount]
    nlinarith [mul_nonneg hI (by linarith : (0:ℚ) ≤ 1 - t),
      mul_nonneg (mul_nonneg ih hr) (by linarith : (0:ℚ) ≤ 1 - t)]

theorem taxdeferral_dominance (I r t : ℚ) (hI : 0 ≤ I) (hr : 0 ≤ r)
    (ht0 : 0 ≤ t) (ht1 : t ≤ 1) (y : ℕ) :
    TaxDeferral.taxableAmount I r t y ≤ TaxDeferral.taxDeferredAmount I r y := by
  induction y with
  | zero => exact le_refl 0
  | succ y ih =>
    have hT := taxdeferral_taxable_nonneg I r t hI hr ht0 ht1 y
    simp only [TaxDeferral.taxableAmount, TaxDeferral.taxDeferredAmount]
    nlinarith [mul_nonneg (mul_nonneg hT hr) ht0, mul_nonneg hI ht0,
      mul_nonneg (sub_nonneg.mpr ih) hr]

theorem taxdeferral_yearlyData_get (I r t : ℚ) (Y y : ℕ)
    (h : y < (TaxDeferral.yearlyData I r t Y).length) :
    (TaxDeferral.yearlyData I r t Y).get ⟨y, h⟩
      = { year := y + 1
          taxDeferredAmount := TaxDeferral.taxDeferredAmount I r (y + 1)
          taxableAmount := TaxDeferral.taxableAmount I r t (y + 1)
          taxDeferredGrowth := TaxDeferral.taxDeferredAmount I r y * r
          taxableGrowth := TaxDeferral.taxableAmount I r t y * r
            - TaxDeferral.taxableAmount I r t y * r * t } := by
  simp only [TaxDeferral.yearlyData, List.get_eq_getElem, List.getElem_map]
  rw [List.getElem_range]

/-- Claim C10: In the tax-deferral calculator, for every input with non-negative
return rate and annual investment and a current tax rate between 0 and 100
percent, the tax-deferred balance is at least the taxable-account balance at
every row of `yearlyData`. -/
theorem C10_taxdeferral_dominates (I r t : ℚ) (years : ℕ) (hI : 0 ≤ I) (hr : 0 ≤ r)
    (ht0 : 0 ≤ t) (ht1 : t ≤ 1) :
    ∀ row ∈ TaxDeferral.yearlyData I r t years, row.taxableAmount ≤ row.taxDeferredAmount := by
  intro row hrow
  rcases List.mem_iff_get.mp hrow with ⟨⟨y, hy⟩, rfl⟩
  rw [taxdeferral_yearlyData_get]
  exact taxdeferral_dominance I r t hI hr ht0 ht1 (y + 1)

/-- Witness for C10: dominance on a 20-year projection at 10% return, 30% tax,
₹100,000 yearly investment. -/
theorem C10_taxdeferral_dominates_witness :
    ((0:ℚ) ≤ 100000 ∧ (0:ℚ) ≤ 1/10 ∧ (0:ℚ) ≤ 3/10 ∧ (3/10 : ℚ) ≤ 1) ∧
    ∀ row ∈ TaxDeferral.yearlyData 100000 (1/10) (3/10) 20,
      row.taxableAmount ≤ row.taxDeferredAmount :=
  ⟨⟨by norm_num, by norm_num, by norm_num, by norm_num⟩,
   C10_taxdeferral_dominates 100000 (1/10) (3/10) 20 (by norm_num) (by norm_num)
     (by norm_num) (by norm_num)⟩
